import Mathlib

/-!
Verification of the type-classification core of the vctrs excerpt
(`src/type.c`): the kind taxonomy, the type resolver `vec_typeof_impl`,
the recursive vector predicate `vec_is_vector_rec`, the kind-name table
`vec_type_as_str`, and the constant pool set up by `vctrs_init_types`.

Values of the host (R) object model are embedded shallowly: the core only
inspects a value's representation tag (`TYPEOF`), its object bit
(`OBJECT`) and its class attribute (via `Rf_inherits`), so a value is
modelled by exactly those observations.
-/

/-- Representation tags of the host value model that the switch in
`vec_typeof_impl` distinguishes.  All tags that fall into the `default`
branch of the C switch (functions, environments, ...) are represented by
`CLOSXP` (a function value, used by the spec's stub scenario) and
`otherSXP n` (any other tag, by numeric code). -/
inductive SEXPTYPE where
  | NILSXP
  | LGLSXP
  | INTSXP
  | REALSXP
  | CPLXSXP
  | STRSXP
  | RAWSXP
  | VECSXP
  | CLOSXP
  | otherSXP (code : Nat)
deriving DecidableEq, Repr

/-- A host value, as observed by this core: its representation tag, its
object bit, and its class attribute (a list of class strings). -/
structure SEXP where
  sexptype : SEXPTYPE
  object : Bool
  classes : List String
deriving DecidableEq, Repr

/-- `TYPEOF(x)`: the representation tag of a value. -/
def TYPEOF (x : SEXP) : SEXPTYPE := x.sexptype

/-- `OBJECT(x)`: whether the value carries a class/object marker. -/
def OBJECT (x : SEXP) : Bool := x.object

/-- `Rf_inherits(x, cls)`: whether `cls` occurs in the class attribute. -/
def Rf_inherits (x : SEXP) (cls : String) : Bool := x.classes.contains cls

/-- `is_data_frame` from src/type.c lines 9-11. -/
def is_data_frame (x : SEXP) : Bool := Rf_inherits x "data.frame"

/-- `is_record` from src/type.c lines 13-15. -/
def is_record (x : SEXP) : Bool :=
  Rf_inherits x "vctrs_rcrd" || Rf_inherits x "POSIXlt"

/-- The closed kind taxonomy, `enum vctrs_type` from vctrs.h as used by
src/type.c. -/
inductive vctrs_type where
  | vctrs_type_null
  | vctrs_type_logical
  | vctrs_type_integer
  | vctrs_type_double
  | vctrs_type_complex
  | vctrs_type_character
  | vctrs_type_raw
  | vctrs_type_list
  | vctrs_type_dataframe
  | vctrs_type_s3
  | vctrs_type_scalar
deriving DecidableEq, Repr, Fintype

/-- The type resolver, `vec_typeof_impl` from src/type.c lines 17-39. -/
def vec_typeof_impl (x : SEXP) (dispatch : Bool) : vctrs_type :=
  match TYPEOF x with
  | .NILSXP => .vctrs_type_null
  | .LGLSXP => if OBJECT x && dispatch then .vctrs_type_s3 else .vctrs_type_logical
  | .INTSXP => if OBJECT x && dispatch then .vctrs_type_s3 else .vctrs_type_integer
  | .REALSXP => if OBJECT x && dispatch then .vctrs_type_s3 else .vctrs_type_double
  | .CPLXSXP => if OBJECT x && dispatch then .vctrs_type_s3 else .vctrs_type_complex
  | .STRSXP => if OBJECT x && dispatch then .vctrs_type_s3 else .vctrs_type_character
  | .RAWSXP => if OBJECT x && dispatch then .vctrs_type_s3 else .vctrs_type_raw
  | .VECSXP =>
    if !OBJECT x then .vctrs_type_list
    else if is_data_frame x then .vctrs_type_dataframe
    else if dispatch then .vctrs_type_s3
    else .vctrs_type_scalar
  | _ => .vctrs_type_scalar

/-- `vec_typeof` from src/type.c lines 40-42: the outward-facing entry
point fixing `dispatch = true`. -/
def vec_typeof (x : SEXP) : vctrs_type := vec_typeof_impl x true

/-- With dispatch disabled the resolver never produces the `s3` kind:
every branch returning `s3` is guarded by `dispatch`. -/
theorem vec_typeof_impl_false_ne_s3 (x : SEXP) :
    vec_typeof_impl x false ≠ .vctrs_type_s3 := by
  obtain ⟨t, o, c⟩ := x
  cases t <;> cases o <;> simp [vec_typeof_impl, TYPEOF, OBJECT]
  split <;> simp

/-- The string-name table `vec_type_as_str` from src/type.c lines 44-58. -/
def vec_type_as_str (type : vctrs_type) : String :=
  match type with
  | .vctrs_type_null      => "null"
  | .vctrs_type_logical   => "logical"
  | .vctrs_type_integer   => "integer"
  | .vctrs_type_double    => "double"
  | .vctrs_type_complex   => "complex"
  | .vctrs_type_character => "character"
  | .vctrs_type_raw       => "raw"
  | .vctrs_type_list      => "list"
  | .vctrs_type_dataframe => "dataframe"
  | .vctrs_type_s3        => "s3"
  | .vctrs_type_scalar    => "scalar"

/-- The recursive vector predicate `vec_is_vector_rec` from src/type.c
lines 60-82, parametrised by the external proxy protocol `vec_proxy`
(an external collaborator, so an arbitrary function here).  The C
recursion terminates because the recursive call fixes `dispatch = false`,
under which the resolver never returns `s3`
(`vec_typeof_impl_false_ne_s3`); the same fact justifies the
well-founded recursion here. -/
def vec_is_vector_rec (vec_proxy : SEXP → SEXP) (x : SEXP) (dispatch : Bool) : Bool :=
  match h : vec_typeof_impl x dispatch with
  | .vctrs_type_logical => true
  | .vctrs_type_integer => true
  | .vctrs_type_double => true
  | .vctrs_type_complex => true
  | .vctrs_type_character => true
  | .vctrs_type_raw => true
  | .vctrs_type_list => true
  | .vctrs_type_dataframe => true
  | .vctrs_type_s3 => vec_is_vector_rec vec_proxy (vec_proxy x) false
  | .vctrs_type_null => false
  | .vctrs_type_scalar => false
termination_by (if dispatch then 1 else 0)
decreasing_by
  cases dispatch
  · exact absurd h (vec_typeof_impl_false_ne_s3 x)
  · simp

/-- `vec_is_vector` from src/type.c lines 85-87: the outward entry point
fixing the initial `dispatch = true`. -/
def vec_is_vector (vec_proxy : SEXP → SEXP) (x : SEXP) : Bool :=
  vec_is_vector_rec vec_proxy x true

/-- Number of invocations of the external proxy protocol performed by a
call `vec_is_vector_rec vec_proxy x dispatch`: 1 plus the recursive
count in the `s3` branch, 0 in every other branch. -/
def vec_is_vector_recCalls (vec_proxy : SEXP → SEXP) (x : SEXP) (dispatch : Bool) : Nat :=
  match h : vec_typeof_impl x dispatch with
  | .vctrs_type_s3 => 1 + vec_is_vector_recCalls vec_proxy (vec_proxy x) false
  | _ => 0
termination_by (if dispatch then 1 else 0)
decreasing_by
  cases dispatch
  · exact absurd h (vec_typeof_impl_false_ne_s3 x)
  · simp

/-- Call-stack model of `vec_is_vector_rec`: the same recursion with an
explicit stack-frame budget; `none` means the budget (call stack) is
exhausted before the recursion bottoms out. -/
def vec_is_vector_fuel (vec_proxy : SEXP → SEXP) :
    Nat → SEXP → Bool → Option Bool
  | 0, _, _ => none
  | fuel + 1, x, dispatch =>
    match vec_typeof_impl x dispatch with
    | .vctrs_type_logical => some true
    | .vctrs_type_integer => some true
    | .vctrs_type_double => some true
    | .vctrs_type_complex => some true
    | .vctrs_type_character => some true
    | .vctrs_type_raw => some true
    | .vctrs_type_list => some true
    | .vctrs_type_dataframe => some true
    | .vctrs_type_s3 => vec_is_vector_fuel vec_proxy fuel (vec_proxy x) false
    | .vctrs_type_null => some false
    | .vctrs_type_scalar => some false

/-- The kinds for which `vec_is_vector_rec` returns `true` immediately
(the fall-through cases in src/type.c lines 62-70). -/
def vectorKinds : List vctrs_type :=
  [.vctrs_type_logical, .vctrs_type_integer, .vctrs_type_double,
   .vctrs_type_complex, .vctrs_type_character, .vctrs_type_raw,
   .vctrs_type_list, .vctrs_type_dataframe]

/-- The underlying primitive kind for each primitive scalar-array
representation tag (the tags of src/type.c lines 20-25), `none` for any
other tag. -/
def primKind : SEXPTYPE → Option vctrs_type
  | .LGLSXP => some .vctrs_type_logical
  | .INTSXP => some .vctrs_type_integer
  | .REALSXP => some .vctrs_type_double
  | .CPLXSXP => some .vctrs_type_complex
  | .STRSXP => some .vctrs_type_character
  | .RAWSXP => some .vctrs_type_raw
  | _ => none

theorem vec_is_vector_rec_of_mem (vec_proxy : SEXP → SEXP) (x : SEXP) (d : Bool)
    (h : vec_typeof_impl x d ∈ vectorKinds) : vec_is_vector_rec vec_proxy x d = true := by
  rw [vec_is_vector_rec]
  split <;> simp_all [vectorKinds]

theorem vec_is_vector_rec_of_null_or_scalar (vec_proxy : SEXP → SEXP) (x : SEXP) (d : Bool)
    (h : vec_typeof_impl x d = .vctrs_type_null ∨ vec_typeof_impl x d = .vctrs_type_scalar) :
    vec_is_vector_rec vec_proxy x d = false := by
  rw [vec_is_vector_rec]
  split <;> simp_all

theorem vec_is_vector_rec_s3_eq (vec_proxy : SEXP → SEXP) (x : SEXP) (d : Bool)
    (h : vec_typeof_impl x d = .vctrs_type_s3) :
    vec_is_vector_rec vec_proxy x d = vec_is_vector_rec vec_proxy (vec_proxy x) false := by
  rw [vec_is_vector_rec]
  split <;> simp_all

theorem vec_is_vector_recCalls_of_ne (vec_proxy : SEXP → SEXP) (x : SEXP) (d : Bool)
    (h : vec_typeof_impl x d ≠ .vctrs_type_s3) : vec_is_vector_recCalls vec_proxy x d = 0 := by
  rw [vec_is_vector_recCalls]
  split <;> simp_all

theorem vec_is_vector_recCalls_false (vec_proxy : SEXP → SEXP) (x : SEXP) :
    vec_is_vector_recCalls vec_proxy x false = 0 :=
  vec_is_vector_recCalls_of_ne vec_proxy x false (vec_typeof_impl_false_ne_s3 x)

theorem vec_is_vector_recCalls_s3 (vec_proxy : SEXP → SEXP) (x : SEXP)
    (h : vec_typeof_impl x true = .vctrs_type_s3) :
    vec_is_vector_recCalls vec_proxy x true = 1 := by
  rw [vec_is_vector_recCalls]
  split <;> simp_all [vec_is_vector_recCalls_false]

theorem vec_is_vector_rec_eq (vec_proxy : SEXP → SEXP) (x : SEXP) (d : Bool) :
    vec_is_vector_rec vec_proxy x d =
      match vec_typeof_impl x d with
      | .vctrs_type_s3 => vec_is_vector_rec vec_proxy (vec_proxy x) false
      | .vctrs_type_null => false
      | .vctrs_type_scalar => false
      | _ => true := by
  rw [vec_is_vector_rec]
  split <;> simp_all

theorem vec_is_vector_fuel_one_false (vec_proxy : SEXP → SEXP) (x : SEXP) :
    vec_is_vector_fuel vec_proxy 1 x false = some (vec_is_vector_rec vec_proxy x false) := by
  have hne := vec_typeof_impl_false_ne_s3 x
  rw [vec_is_vector_rec_eq, show (1 : Nat) = 0 + 1 from rfl, vec_is_vector_fuel]
  cases h : vec_typeof_impl x false <;> simp_all

theorem vec_is_vector_fuel_two (vec_proxy : SEXP → SEXP) (x : SEXP) (d : Bool) :
    vec_is_vector_fuel vec_proxy 2 x d = some (vec_is_vector_rec vec_proxy x d) := by
  rw [vec_is_vector_rec_eq, show (2 : Nat) = 1 + 1 from rfl, vec_is_vector_fuel]
  cases h : vec_typeof_impl x d <;> simp_all [vec_is_vector_fuel_one_false]

/-- The resolver only inspects a value's representation tag, object bit
and data-frame class test; any two values agreeing on those three
observations (whatever their other classes, e.g. record classes) are
classified identically. -/
theorem vec_typeof_impl_congr (x y : SEXP) (h1 : TYPEOF x = TYPEOF y)
    (h2 : OBJECT x = OBJECT y) (h3 : is_data_frame x = is_data_frame y) (d : Bool) :
    vec_typeof_impl x d = vec_typeof_impl y d := by
  obtain ⟨t, o, c⟩ := x
  obtain ⟨t', o', c'⟩ := y
  simp only [TYPEOF, OBJECT] at h1 h2
  subst h1
  subst h2
  cases t <;> simp [vec_typeof_impl, TYPEOF, OBJECT, h3]

/-- C1: a value of primitive scalar-array representation carrying the
class/object marker resolves to `s3` under `dispatch = true` and to its
underlying primitive kind under `dispatch = false`. -/
theorem classed_primitive_resolution (x : SEXP) (k : vctrs_type)
    (hk : primKind (TYPEOF x) = some k) (ho : OBJECT x = true) :
    vec_typeof_impl x true = .vctrs_type_s3 ∧ vec_typeof_impl x false = k := by
  obtain ⟨t, o, c⟩ := x
  cases t <;> simp_all [primKind, TYPEOF, OBJECT, vec_typeof_impl]

/-- Witness for C1 at a classed integer array. -/
theorem classed_primitive_resolution_witness :
    primKind (TYPEOF ⟨.INTSXP, true, ["factor"]⟩) = some .vctrs_type_integer ∧
    OBJECT ⟨.INTSXP, true, ["factor"]⟩ = true ∧
    vec_typeof_impl ⟨.INTSXP, true, ["factor"]⟩ true = .vctrs_type_s3 ∧
    vec_typeof_impl ⟨.INTSXP, true, ["factor"]⟩ false = .vctrs_type_integer :=
  ⟨rfl, rfl,
   (classed_primitive_resolution ⟨.INTSXP, true, ["factor"]⟩ .vctrs_type_integer rfl rfl).1,
   (classed_primitive_resolution ⟨.INTSXP, true, ["factor"]⟩ .vctrs_type_integer rfl rfl).2⟩

/-- C7: an unclassed primitive scalar-array value is classified the same
way under both dispatch modes, namely as its underlying primitive kind. -/
theorem unclassed_primitive_resolution (x : SEXP) (k : vctrs_type)
    (hk : primKind (TYPEOF x) = some k) (ho : OBJECT x = false) :
    vec_typeof_impl x true = vec_typeof_impl x false ∧ vec_typeof_impl x true = k := by
  obtain ⟨t, o, c⟩ := x
  cases t <;> simp_all [primKind, TYPEOF, OBJECT, vec_typeof_impl]

/-- Witness for C7 at an unclassed empty boolean array. -/
theorem unclassed_primitive_resolution_witness :
    primKind (TYPEOF ⟨.LGLSXP, false, []⟩) = some .vctrs_type_logical ∧
    OBJECT ⟨.LGLSXP, false, []⟩ = false ∧
    vec_typeof_impl ⟨.LGLSXP, false, []⟩ true = vec_typeof_impl ⟨.LGLSXP, false, []⟩ false ∧
    vec_typeof_impl ⟨.LGLSXP, false, []⟩ true = .vctrs_type_logical :=
  ⟨rfl, rfl,
   (unclassed_primitive_resolution ⟨.LGLSXP, false, []⟩ .vctrs_type_logical rfl rfl).1,
   (unclassed_primitive_resolution ⟨.LGLSXP, false, []⟩ .vctrs_type_logical rfl rfl).2⟩

/-- Case analysis of the resolver's `VECSXP` branch (src/type.c lines
26-35), shared by the container claims below. -/
theorem vecsxp_resolution (x : SEXP) (ht : TYPEOF x = .VECSXP) :
    (OBJECT x = false → ∀ d, vec_typeof_impl x d = .vctrs_type_list) ∧
    (OBJECT x = true → is_data_frame x = true →
      ∀ d, vec_typeof_impl x d = .vctrs_type_dataframe) ∧
    (OBJECT x = true → is_data_frame x = false →
      vec_typeof_impl x true = .vctrs_type_s3 ∧
      vec_typeof_impl x false = .vctrs_type_scalar) := by
  obtain ⟨t, o, c⟩ := x
  simp only [TYPEOF] at ht
  subst ht
  refine ⟨fun ho d => ?_, fun ho hdf d => ?_, fun ho hdf => ?_⟩ <;>
    simp_all [vec_typeof_impl, TYPEOF, OBJECT]

/-- C2: a generic heterogeneous container (`VECSXP`) resolves to `list`
when unclassed (under either dispatch mode), to `dataframe` when classed
as a data frame (under either dispatch mode), and otherwise to `s3` with
dispatch enabled and `scalar` with dispatch disabled. -/
theorem generic_container_resolution (x : SEXP) (ht : TYPEOF x = .VECSXP) :
    (OBJECT x = false → ∀ d, vec_typeof_impl x d = .vctrs_type_list) ∧
    (OBJECT x = true → is_data_frame x = true →
      ∀ d, vec_typeof_impl x d = .vctrs_type_dataframe) ∧
    (OBJECT x = true → is_data_frame x = false →
      vec_typeof_impl x true = .vctrs_type_s3 ∧
      vec_typeof_impl x false = .vctrs_type_scalar) :=
  vecsxp_resolution x ht

/-- Witness for C2 at an unclassed container, a data-frame-classed
container, and an otherwise-classed container. -/
theorem generic_container_resolution_witness :
    vec_typeof_impl ⟨.VECSXP, false, []⟩ true = .vctrs_type_list ∧
    vec_typeof_impl ⟨.VECSXP, true, ["data.frame"]⟩ false = .vctrs_type_dataframe ∧
    vec_typeof_impl ⟨.VECSXP, true, ["myclass"]⟩ true = .vctrs_type_s3 ∧
    vec_typeof_impl ⟨.VECSXP, true, ["myclass"]⟩ false = .vctrs_type_scalar :=
  ⟨(generic_container_resolution ⟨.VECSXP, false, []⟩ rfl).1 rfl true,
   (generic_container_resolution ⟨.VECSXP, true, ["data.frame"]⟩ rfl).2.1 rfl (by decide) false,
   ((generic_container_resolution ⟨.VECSXP, true, ["myclass"]⟩ rfl).2.2 rfl (by decide)).1,
   ((generic_container_resolution ⟨.VECSXP, true, ["myclass"]⟩ rfl).2.2 rfl (by decide)).2⟩

/-- C10: a classed generic container recognised by the record predicate
but not by the data-frame predicate resolves to `s3` (dispatch enabled)
or `scalar` (dispatch disabled), never to `dataframe`; and the resolver
consults only the representation tag, object bit and data-frame test, so
the record predicate never influences the outcome. -/
theorem record_container_resolution (x : SEXP) (ht : TYPEOF x = .VECSXP)
    (ho : OBJECT x = true) (_hr : is_record x = true) (hdf : is_data_frame x = false) :
    vec_typeof_impl x true = .vctrs_type_s3 ∧
    vec_typeof_impl x false = .vctrs_type_scalar ∧
    (∀ d, vec_typeof_impl x d ≠ .vctrs_type_dataframe) ∧
    (∀ y : SEXP, TYPEOF y = TYPEOF x → OBJECT y = OBJECT x →
      is_data_frame y = is_data_frame x → ∀ d, vec_typeof_impl y d = vec_typeof_impl x d) := by
  have h3 := (vecsxp_resolution x ht).2.2 ho hdf
  refine ⟨h3.1, h3.2, fun d => ?_, fun y h1 h2 h3y d => vec_typeof_impl_congr y x h1 h2 h3y d⟩
  cases d
  · rw [h3.2]
    simp
  · rw [h3.1]
    simp

/-- Witness for C10 at a container classed as `vctrs_rcrd`. -/
theorem record_container_resolution_witness :
    vec_typeof_impl ⟨.VECSXP, true, ["vctrs_rcrd"]⟩ true = .vctrs_type_s3 ∧
    vec_typeof_impl ⟨.VECSXP, true, ["vctrs_rcrd"]⟩ false = .vctrs_type_scalar :=
  ⟨(record_container_resolution ⟨.VECSXP, true, ["vctrs_rcrd"]⟩ rfl rfl (by decide)
      (by decide)).1,
   (record_container_resolution ⟨.VECSXP, true, ["vctrs_rcrd"]⟩ rfl rfl (by decide)
      (by decide)).2.1⟩

/-- A proxy protocol function returning its argument unchanged: the
spec's "value returning itself" scenario. -/
def proxy_identity (v : SEXP) : SEXP := v

/-- C3: for a value resolving (with dispatch) to one of the eight
vector-shaped kinds, `vec_is_vector` answers `true`, and for one
resolving to `null` or `scalar` it answers `false`; in both cases the
external proxy protocol is invoked zero times. -/
theorem is_vector_direct_kinds (vec_proxy : SEXP → SEXP) (x : SEXP) :
    (vec_typeof_impl x true ∈ vectorKinds →
      vec_is_vector vec_proxy x = true ∧ vec_is_vector_recCalls vec_proxy x true = 0) ∧
    ((vec_typeof_impl x true = .vctrs_type_null ∨
        vec_typeof_impl x true = .vctrs_type_scalar) →
      vec_is_vector vec_proxy x = false ∧ vec_is_vector_recCalls vec_proxy x true = 0) := by
  constructor
  · intro h
    refine ⟨vec_is_vector_rec_of_mem vec_proxy x true h,
      vec_is_vector_recCalls_of_ne vec_proxy x true fun hs3 => ?_⟩
    rw [hs3] at h
    simp [vectorKinds] at h
  · intro h
    refine ⟨vec_is_vector_rec_of_null_or_scalar vec_proxy x true h,
      vec_is_vector_recCalls_of_ne vec_proxy x true fun hs3 => ?_⟩
    rcases h with h | h <;> rw [hs3] at h <;> simp at h

/-- Witness for C3 at an unclassed floating-point array (a vector kind)
and at the null value. -/
theorem is_vector_direct_kinds_witness :
    vec_is_vector proxy_identity ⟨.REALSXP, false, []⟩ = true ∧
    vec_is_vector_recCalls proxy_identity ⟨.REALSXP, false, []⟩ true = 0 ∧
    vec_is_vector proxy_identity ⟨.NILSXP, false, []⟩ = false ∧
    vec_is_vector_recCalls proxy_identity ⟨.NILSXP, false, []⟩ true = 0 :=
  ⟨((is_vector_direct_kinds proxy_identity ⟨.REALSXP, false, []⟩).1 (by decide)).1,
   ((is_vector_direct_kinds proxy_identity ⟨.REALSXP, false, []⟩).1 (by decide)).2,
   ((is_vector_direct_kinds proxy_identity ⟨.NILSXP, false, []⟩).2 (Or.inl (by decide))).1,
   ((is_vector_direct_kinds proxy_identity ⟨.NILSXP, false, []⟩).2 (Or.inl (by decide))).2⟩

/-- C4: for a value resolving (with dispatch) to `s3`, `vec_is_vector`
equals the recursive call on the proxy of the value with the dispatch
flag forced to `false`, and the proxy protocol is invoked exactly once. -/
theorem is_vector_s3_proxy (vec_proxy : SEXP → SEXP) (x : SEXP)
    (h : vec_typeof_impl x true = .vctrs_type_s3) :
    vec_is_vector vec_proxy x = vec_is_vector_rec vec_proxy (vec_proxy x) false ∧
    vec_is_vector_recCalls vec_proxy x true = 1 :=
  ⟨vec_is_vector_rec_s3_eq vec_proxy x true h, vec_is_vector_recCalls_s3 vec_proxy x h⟩

/-- Witness for C4 at a classed integer array, with a stub proxy
returning a bare integer array (yielding `true`) and a stub proxy
returning a function value (yielding `false`). -/
theorem is_vector_s3_proxy_witness :
    vec_typeof_impl ⟨.INTSXP, true, ["myclass"]⟩ true = .vctrs_type_s3 ∧
    vec_is_vector (fun _ => (⟨.INTSXP, false, []⟩ : SEXP)) ⟨.INTSXP, true, ["myclass"]⟩ = true ∧
    vec_is_vector (fun _ => (⟨.CLOSXP, false, []⟩ : SEXP)) ⟨.INTSXP, true, ["myclass"]⟩ = false ∧
    vec_is_vector_recCalls (fun _ => (⟨.INTSXP, false, []⟩ : SEXP))
      ⟨.INTSXP, true, ["myclass"]⟩ true = 1 :=
  ⟨rfl,
   ((is_vector_s3_proxy (fun _ => (⟨.INTSXP, false, []⟩ : SEXP))
       ⟨.INTSXP, true, ["myclass"]⟩ rfl).1).trans
     (vec_is_vector_rec_of_mem _ _ false (by decide)),
   ((is_vector_s3_proxy (fun _ => (⟨.CLOSXP, false, []⟩ : SEXP))
       ⟨.INTSXP, true, ["myclass"]⟩ rfl).1).trans
     (vec_is_vector_rec_of_null_or_scalar _ _ false (Or.inr (by decide))),
   (is_vector_s3_proxy (fun _ => (⟨.INTSXP, false, []⟩ : SEXP))
       ⟨.INTSXP, true, ["myclass"]⟩ rfl).2⟩

/-- C5: the resolver never yields `s3` with dispatch disabled, the proxy
protocol is invoked at most once per `vec_is_vector_rec` call, and two
stack frames always suffice: the fuelled computation at depth 2 already
returns the value of the full recursion, for every proxy function. -/
theorem proxy_chain_bounded (vec_proxy : SEXP → SEXP) (x : SEXP) (d : Bool) :
    vec_typeof_impl x false ≠ .vctrs_type_s3 ∧
    vec_is_vector_recCalls vec_proxy x d ≤ 1 ∧
    vec_is_vector_fuel vec_proxy 2 x d = some (vec_is_vector_rec vec_proxy x d) := by
  refine ⟨vec_typeof_impl_false_ne_s3 x, ?_, vec_is_vector_fuel_two vec_proxy x d⟩
  by_cases hs : vec_typeof_impl x d = .vctrs_type_s3
  · cases d
    · exact absurd hs (vec_typeof_impl_false_ne_s3 x)
    · rw [vec_is_vector_recCalls_s3 vec_proxy x hs]
  · rw [vec_is_vector_recCalls_of_ne vec_proxy x d hs]
    simp

/-- C6 counterexample: in the spec's own looping scenario - a classed
value whose proxy returns the value itself - the recursion does not
descend unboundedly: it completes within two stack frames, and the
premise of the claim is unsatisfiable because the self-returned value
resolves to its bare primitive kind, not `s3`, under `dispatch = false`. -/
theorem proxy_self_loop_terminates :
    vec_is_vector_fuel proxy_identity 2 ⟨.INTSXP, true, ["myclass"]⟩ true = some true ∧
    vec_typeof_impl ⟨.INTSXP, true, ["myclass"]⟩ true = .vctrs_type_s3 ∧
    vec_typeof_impl (proxy_identity ⟨.INTSXP, true, ["myclass"]⟩) false =
      .vctrs_type_integer :=
  ⟨rfl, rfl, rfl⟩

/-- C6 (amended): no proxy result ever resolves to `s3` under the forced
`dispatch = false`, so the recursion in `vec_is_vector_rec` is
depth-bounded for every proxy function - including self-returning or
cyclic ones - and two stack frames always complete the computation. -/
theorem proxy_chain_depth_bound (vec_proxy : SEXP → SEXP) (x : SEXP) :
    vec_typeof_impl (vec_proxy x) false ≠ .vctrs_type_s3 ∧
    (vec_is_vector_fuel vec_proxy 2 x true).isSome = true := by
  refine ⟨vec_typeof_impl_false_ne_s3 _, ?_⟩
  rw [vec_is_vector_fuel_two]
  rfl

/-- Witness for C5 at a classed integer array with a self-returning
proxy. -/
theorem proxy_chain_bounded_witness :
    vec_is_vector_recCalls proxy_identity ⟨.INTSXP, true, ["myclass"]⟩ true ≤ 1 ∧
    vec_is_vector_fuel proxy_identity 2 ⟨.INTSXP, true, ["myclass"]⟩ true =
      some (vec_is_vector_rec proxy_identity ⟨.INTSXP, true, ["myclass"]⟩ true) :=
  ⟨(proxy_chain_bounded proxy_identity ⟨.INTSXP, true, ["myclass"]⟩ true).2.1,
   (proxy_chain_bounded proxy_identity ⟨.INTSXP, true, ["myclass"]⟩ true).2.2⟩

/-- Witness for the amended C6 at a classed container with a
self-returning proxy. -/
theorem proxy_chain_depth_bound_witness :
    (vec_is_vector_fuel proxy_identity 2 ⟨.VECSXP, true, ["myclass"]⟩ true).isSome = true :=
  (proxy_chain_depth_bound proxy_identity ⟨.VECSXP, true, ["myclass"]⟩).2

/-- All eleven enumerators of the kind taxonomy. -/
def allKinds : List vctrs_type :=
  [.vctrs_type_null, .vctrs_type_logical, .vctrs_type_integer,
   .vctrs_type_double, .vctrs_type_complex, .vctrs_type_character,
   .vctrs_type_raw, .vctrs_type_list, .vctrs_type_dataframe,
   .vctrs_type_s3, .vctrs_type_scalar]

/-- C8: `vec_type_as_str` is total over the kind enumeration, its eleven
names are exactly "null", "logical", "integer", "double", "complex",
"character", "raw", "list", "dataframe", "s3", "scalar", no two kinds
share a name, and every name is non-empty. -/
theorem kind_name_table_exact :
    (∀ k : vctrs_type, k ∈ allKinds) ∧
    allKinds.map vec_type_as_str =
      ["null", "logical", "integer", "double", "complex", "character",
       "raw", "list", "dataframe", "s3", "scalar"] ∧
    (allKinds.map vec_type_as_str).Nodup ∧
    (∀ k : vctrs_type, 0 < (vec_type_as_str k).length) := by
  refine ⟨fun k => ?_, rfl, by decide, fun k => ?_⟩
  · cases k <;> decide
  · cases k <;> decide

/-- A host floating-point number as observed by this core: the missing
marker `NA_REAL` or an ordinary number. -/
inductive RDouble where
  | NA_REAL
  | number (q : Rat)
deriving DecidableEq, Repr

/-- `Rcomplex`: a complex cell with real and imaginary components. -/
structure Rcomplex where
  r : RDouble
  i : RDouble
deriving DecidableEq, Repr

/-- A heap-allocated host container as observed by the constant pool:
representation tag, length, element data (only logical data is ever
written by this core; elements are stored as host integers), and the
lifecycle flags set by the keep-alive primitive (`preserved`), the
immutability marking (`notMutable`) and the reclaimer (`freed`). -/
structure RObj where
  sexptype : SEXPTYPE
  len : Nat
  data : List Int
  preserved : Bool
  notMutable : Bool
  freed : Bool
deriving DecidableEq, Repr

/-- The host heap: containers in allocation order.  A handle is an index
into this list; allocation only appends, so handles are stable. -/
abbrev Heap := List RObj

/-- Dereference a handle. -/
def heapGet : Heap → Nat → Option RObj
  | [], _ => none
  | o :: _, 0 => some o
  | _ :: t, n + 1 => heapGet t n

/-- Replace the container at a handle by the image under `f`. -/
def heapModify : Heap → Nat → (RObj → RObj) → Heap
  | [], _, _ => []
  | o :: t, 0, f => f o :: t
  | o :: t, n + 1, f => o :: heapModify t n f

/-- `Rf_allocVector(t, n)`: allocate a fresh container of tag `t` and
length `n` (data zero-filled; no flag set yet) and return its handle. -/
def Rf_allocVector (t : SEXPTYPE) (n : Nat) (h : Heap) : Heap × Nat :=
  (h ++ [⟨t, n, List.replicate n 0, false, false, false⟩], h.length)

/-- Modelled from the spec: the keep-alive primitive `R_PreserveObject`
(§6) registers a container so the host reclaimer never frees it. -/
def R_PreserveObject (h : Heap) (idx : Nat) : Heap :=
  heapModify h idx fun o => {o with preserved := true}

/-- Modelled from the spec: the immutability marking `MARK_NOT_MUTABLE`
(§6) marks a container so host-level in-place mutation is rejected. -/
def MARK_NOT_MUTABLE (h : Heap) (idx : Nat) : Heap :=
  heapModify h idx fun o => {o with notMutable := true}

/-- A raw C-level element write `LOGICAL(x)[i] = v`, as the initializer
itself performs; such writes go straight to storage and bypass the
host-level mutability check. -/
def writeLOGICAL (h : Heap) (idx i : Nat) (v : Int) : Heap :=
  heapModify h idx fun o => {o with data := o.data.set i v}

/-- Host-level operations available to consumers after initialization.
`mutate` is modelled from the spec (§4.4, §6): an in-place mutation
attempt on a container marked not-mutable is rejected; `gc` frees every
container not registered with the keep-alive primitive. -/
inductive HostOp where
  | alloc (t : SEXPTYPE) (n : Nat)
  | preserve (idx : Nat)
  | markImmutable (idx : Nat)
  | mutate (idx i : Nat) (v : Int)
  | gc

/-- Effect of one host-level operation on the heap. -/
def applyOp (h : Heap) : HostOp → Heap
  | .alloc t n => (Rf_allocVector t n h).1
  | .preserve idx => R_PreserveObject h idx
  | .markImmutable idx => MARK_NOT_MUTABLE h idx
  | .mutate idx i v =>
    match heapGet h idx with
    | none => h
    | some o =>
      if o.notMutable then h
      else heapModify h idx fun o => {o with data := o.data.set i v}
  | .gc => h.map fun o => if o.preserved then o else {o with freed := true}

/-- Effect of a sequence of host-level operations. -/
def applyOps : List HostOp → Heap → Heap
  | [], h => h
  | op :: rest, h => applyOps rest (applyOp h op)

/-- The handle at `idx` is unaffected by the constancy of the rest of the
heap: reading through `heapModify` at another index, or at the same index
through the modification. -/
theorem heapGet_heapModify (h : Heap) (j idx : Nat) (f : RObj → RObj) :
    heapGet (heapModify h j f) idx =
      if idx = j then (heapGet h idx).map f else heapGet h idx := by
  induction h generalizing j idx with
  | nil => cases j <;> cases idx <;> simp [heapModify, heapGet]
  | cons o t ih =>
    cases j with
    | zero => cases idx <;> simp [heapModify, heapGet]
    | succ j' =>
      cases idx with
      | zero => simp [heapModify, heapGet]
      | succ idx' => simpa [heapModify, heapGet] using ih j' idx'

/-- Reading an existing handle is unaffected by appending fresh
containers. -/
theorem heapGet_append (h l : Heap) (idx : Nat) (o : RObj)
    (hg : heapGet h idx = some o) : heapGet (h ++ l) idx = some o := by
  induction h generalizing idx with
  | nil => simp [heapGet] at hg
  | cons a t ih =>
    cases idx with
    | zero => simpa [heapGet] using hg
    | succ n => exact ih n hg

/-- Reading through a heap-wide map applies the function pointwise. -/
theorem heapGet_map (h : Heap) (f : RObj → RObj) (idx : Nat) :
    heapGet (h.map f) idx = (heapGet h idx).map f := by
  induction h generalizing idx with
  | nil => simp [heapGet]
  | cons a t ih =>
    cases idx with
    | zero => simp [heapGet]
    | succ n => simpa [heapGet] using ih n

theorem robj_update_preserved (o : RObj) (hp : o.preserved = true) :
    {o with preserved := true} = o := by
  obtain ⟨a, b, c, p, m, fr⟩ := o
  simp only at hp
  subst hp
  rfl

theorem robj_update_notMutable (o : RObj) (hm : o.notMutable = true) :
    {o with notMutable := true} = o := by
  obtain ⟨a, b, c, p, m, fr⟩ := o
  simp only at hm
  subst hm
  rfl

/-- A container that is preserved and marked not-mutable survives any
single host-level operation unchanged, at the same handle. -/
theorem heapGet_applyOp (h : Heap) (idx : Nat) (o : RObj) (op : HostOp)
    (hg : heapGet h idx = some o) (hp : o.preserved = true)
    (hm : o.notMutable = true) : heapGet (applyOp h op) idx = some o := by
  cases op with
  | alloc t n =>
    exact heapGet_append h _ idx o hg
  | preserve j =>
    rw [applyOp, R_PreserveObject, heapGet_heapModify]
    split
    · rw [hg, Option.map_some', robj_update_preserved o hp]
    · exact hg
  | markImmutable j =>
    rw [applyOp, MARK_NOT_MUTABLE, heapGet_heapModify]
    split
    · rw [hg, Option.map_some', robj_update_notMutable o hm]
    · exact hg
  | mutate j i v =>
    rw [applyOp]
    cases hj : heapGet h j with
    | none => exact hg
    | some oj =>
      show heapGet (if oj.notMutable = true then h
          else heapModify h j fun o => {o with data := o.data.set i v}) idx = some o
      by_cases hnm : oj.notMutable = true
      · rw [if_pos hnm]
        exact hg
      · rw [if_neg hnm, heapGet_heapModify]
        split
        · next heq =>
          rw [heq] at hg
          rw [hg] at hj
          injection hj with hoj
          subst hoj
          exact absurd hm hnm
        · exact hg
  | gc =>
    rw [applyOp, heapGet_map, hg, Option.map_some', hp]
    simp

/-- A container that is preserved and marked not-mutable survives any
sequence of host-level operations unchanged, at the same handle. -/
theorem heapGet_applyOps (ops : List HostOp) (h : Heap) (idx : Nat) (o : RObj)
    (hg : heapGet h idx = some o) (hp : o.preserved = true)
    (hm : o.notMutable = true) : heapGet (applyOps ops h) idx = some o := by
  induction ops generalizing h with
  | nil => exact hg
  | cons op rest ih => exact ih (applyOp h op) (heapGet_applyOp h idx o op hg hp hm)

/-- The shared globals set up by `vctrs_init_types` (src/type.c lines
106-117): one heap handle per shared container, plus the missing-complex
sentinel value. -/
structure VctrsConstants where
  vctrs_shared_empty_lgl : Nat
  vctrs_shared_empty_int : Nat
  vctrs_shared_empty_dbl : Nat
  vctrs_shared_empty_cpl : Nat
  vctrs_shared_empty_chr : Nat
  vctrs_shared_empty_raw : Nat
  vctrs_shared_empty_list : Nat
  vctrs_shared_true : Nat
  vctrs_shared_false : Nat
  vctrs_shared_na_cpl : Rcomplex
deriving DecidableEq, Repr

/-- `vctrs_init_types` from src/type.c lines 119-163 (the constant-pool
part, lines 123-162; lines 120-121 cache an R-level dispatch symbol and
do not touch the pool).  Each global is allocated, registered with the
keep-alive primitive and marked not-mutable, in source order; the
`true`/`false` scalars are then filled through the raw accessor
`LOGICAL(...)[0]` - which bypasses the host-level mutability check, as in
the C, where that write follows `MARK_NOT_MUTABLE` - and the
missing-complex sentinel has both components set to `NA_REAL`. -/
def vctrs_init_types (h0 : Heap) : Heap × VctrsConstants :=
  let (h1, lgl) := Rf_allocVector .LGLSXP 0 h0
  let h1 := MARK_NOT_MUTABLE (R_PreserveObject h1 lgl) lgl
  let (h2, intg) := Rf_allocVector .INTSXP 0 h1
  let h2 := MARK_NOT_MUTABLE (R_PreserveObject h2 intg) intg
  let (h3, dbl) := Rf_allocVector .REALSXP 0 h2
  let h3 := MARK_NOT_MUTABLE (R_PreserveObject h3 dbl) dbl
  let (h4, cpl) := Rf_allocVector .CPLXSXP 0 h3
  let h4 := MARK_NOT_MUTABLE (R_PreserveObject h4 cpl) cpl
  let (h5, chr) := Rf_allocVector .STRSXP 0 h4
  let h5 := MARK_NOT_MUTABLE (R_PreserveObject h5 chr) chr
  let (h6, rw) := Rf_allocVector .RAWSXP 0 h5
  let h6 := MARK_NOT_MUTABLE (R_PreserveObject h6 rw) rw
  let (h7, lst) := Rf_allocVector .VECSXP 0 h6
  let h7 := MARK_NOT_MUTABLE (R_PreserveObject h7 lst) lst
  let (h8, tru) := Rf_allocVector .LGLSXP 1 h7
  let h8 := writeLOGICAL (MARK_NOT_MUTABLE (R_PreserveObject h8 tru) tru) tru 0 1
  let (h9, fls) := Rf_allocVector .LGLSXP 1 h8
  let h9 := writeLOGICAL (MARK_NOT_MUTABLE (R_PreserveObject h9 fls) fls) fls 0 0
  (h9, ⟨lgl, intg, dbl, cpl, chr, rw, lst, tru, fls, ⟨.NA_REAL, .NA_REAL⟩⟩)

/-- The heap after one run of the initializer on an empty heap. -/
def vctrsInitHeap : Heap := (vctrs_init_types []).1

/-- The shared globals after one run of the initializer. -/
def vctrsConstants : VctrsConstants := (vctrs_init_types []).2

/-- Handle `idx` of heap `h` is stable: every sequence of host-level
operations leaves the container it denotes unchanged. -/
def poolStable (h : Heap) (idx : Nat) : Prop :=
  ∀ ops : List HostOp, heapGet (applyOps ops h) idx = heapGet h idx

/-- C9: after a single run of `vctrs_init_types` on an empty heap, the
pool holds one zero-length container per primitive kind, two length-one
boolean scalars holding true (1) and false (0), and the missing-complex
sentinel with both components `NA_REAL`; every container is registered
with the keep-alive primitive (`preserved`), marked permanently
immutable (`notMutable`), not freed, and survives every subsequent
sequence of host-level operations unchanged at a stable handle. -/
theorem constant_pool_initialized :
    heapGet vctrsInitHeap vctrsConstants.vctrs_shared_empty_lgl =
      some ⟨.LGLSXP, 0, [], true, true, false⟩ ∧
    heapGet vctrsInitHeap vctrsConstants.vctrs_shared_empty_int =
      some ⟨.INTSXP, 0, [], true, true, false⟩ ∧
    heapGet vctrsInitHeap vctrsConstants.vctrs_shared_empty_dbl =
      some ⟨.REALSXP, 0, [], true, true, false⟩ ∧
    heapGet vctrsInitHeap vctrsConstants.vctrs_shared_empty_cpl =
      some ⟨.CPLXSXP, 0, [], true, true, false⟩ ∧
    heapGet vctrsInitHeap vctrsConstants.vctrs_shared_empty_chr =
      some ⟨.STRSXP, 0, [], true, true, false⟩ ∧
    heapGet vctrsInitHeap vctrsConstants.vctrs_shared_empty_raw =
      some ⟨.RAWSXP, 0, [], true, true, false⟩ ∧
    heapGet vctrsInitHeap vctrsConstants.vctrs_shared_empty_list =
      some ⟨.VECSXP, 0, [], true, true, false⟩ ∧
    heapGet vctrsInitHeap vctrsConstants.vctrs_shared_true =
      some ⟨.LGLSXP, 1, [1], true, true, false⟩ ∧
    heapGet vctrsInitHeap vctrsConstants.vctrs_shared_false =
      some ⟨.LGLSXP, 1, [0], true, true, false⟩ ∧
    vctrsConstants.vctrs_shared_na_cpl = ⟨.NA_REAL, .NA_REAL⟩ ∧
    poolStable vctrsInitHeap vctrsConstants.vctrs_shared_empty_lgl ∧
    poolStable vctrsInitHeap vctrsConstants.vctrs_shared_empty_int ∧
    poolStable vctrsInitHeap vctrsConstants.vctrs_shared_empty_dbl ∧
    poolStable vctrsInitHeap vctrsConstants.vctrs_shared_empty_cpl ∧
    poolStable vctrsInitHeap vctrsConstants.vctrs_shared_empty_chr ∧
    poolStable vctrsInitHeap vctrsConstants.vctrs_shared_empty_raw ∧
    poolStable vctrsInitHeap vctrsConstants.vctrs_shared_empty_list ∧
    poolStable vctrsInitHeap vctrsConstants.vctrs_shared_true ∧
    poolStable vctrsInitHeap vctrsConstants.vctrs_shared_false :=
  ⟨rfl, rfl, rfl, rfl, rfl, rfl, rfl, rfl, rfl, rfl,
   fun ops => (heapGet_applyOps ops vctrsInitHeap vctrsConstants.vctrs_shared_empty_lgl
     ⟨.LGLSXP, 0, [], true, true, false⟩ rfl rfl rfl).trans rfl,
   fun ops => (heapGet_applyOps ops vctrsInitHeap vctrsConstants.vctrs_shared_empty_int
     ⟨.INTSXP, 0, [], true, true, false⟩ rfl rfl rfl).trans rfl,
   fun ops => (heapGet_applyOps ops vctrsInitHeap vctrsConstants.vctrs_shared_empty_dbl
     ⟨.REALSXP, 0, [], true, true, false⟩ rfl rfl rfl).trans rfl,
   fun ops => (heapGet_applyOps ops vctrsInitHeap vctrsConstants.vctrs_shared_empty_cpl
     ⟨.CPLXSXP, 0, [], true, true, false⟩ rfl rfl rfl).trans rfl,
   fun ops => (heapGet_applyOps ops vctrsInitHeap vctrsConstants.vctrs_shared_empty_chr
     ⟨.STRSXP, 0, [], true, true, false⟩ rfl rfl rfl).trans rfl,
   fun ops => (heapGet_applyOps ops vctrsInitHeap vctrsConstants.vctrs_shared_empty_raw
     ⟨.RAWSXP, 0, [], true, true, false⟩ rfl rfl rfl).trans rfl,
   fun ops => (heapGet_applyOps ops vctrsInitHeap vctrsConstants.vctrs_shared_empty_list
     ⟨.VECSXP, 0, [], true, true, false⟩ rfl rfl rfl).trans rfl,
   fun ops => (heapGet_applyOps ops vctrsInitHeap vctrsConstants.vctrs_shared_true
     ⟨.LGLSXP, 1, [1], true, true, false⟩ rfl rfl rfl).trans rfl,
   fun ops => (heapGet_applyOps ops vctrsInitHeap vctrsConstants.vctrs_shared_false
     ⟨.LGLSXP, 1, [0], true, true, false⟩ rfl rfl rfl).trans rfl⟩
